import Mathlib

/-!
Shallow embedding of the asynchronous stream-processing pipeline from
`examples/asynchronous_processing.rs`: a `StreamConsumer` stream of
receive results is filtered for Kafka errors (`filter_map`), each
surviving message is detached and handed to a spawned dispatch unit
(`for_each` + `tokio::spawn`) that offloads `expensive_computation` to a
worker pool (`tokio_executor::blocking::run`) and then publishes the
result through a `FutureProducer`.

Finite streams are embedded as lists, the event loop and the spawned
units as a labelled small-step system on a pipeline state, and the
external collaborators that live outside `src/` (the blocking offloader
and the producer) as parameters of a deterministic fake environment, as
the spec's testable properties prescribe.
-/

set_option maxRecDepth 8192

deriving instance DecidableEq for Except

namespace AsyncProcessing

/-- A transport-level Kafka error, carrying only its rendered message. -/
structure KafkaError where
  message : String
deriving DecidableEq, Repr

/-- An owned message (`OwnedMessage`): an offset and a payload that is
absent, present but not valid UTF-8 (`Except.error`), or a UTF-8 string.
This mirrors exactly what `payload_view::<str>()` exposes. -/
structure OwnedMessage where
  offset : Int
  payload : Option (Except Unit String)
deriving DecidableEq, Repr

/-- A borrowed message as received from the stream; same observable
fields as the owned form, but tied to the consumer's buffer in the
source, hence a distinct type. -/
structure BorrowedMessage where
  offset : Int
  payload : Option (Except Unit String)
deriving DecidableEq, Repr

/-- `BorrowedMessage::detach`: make an owned copy of the message. -/
def BorrowedMessage.detach (m : BorrowedMessage) : OwnedMessage :=
  ⟨m.offset, m.payload⟩

/-- `OwnedMessage::payload_view::<str>()`. -/
def OwnedMessage.payload_view (m : OwnedMessage) : Option (Except Unit String) :=
  m.payload

/-- One receive attempt from the consumer stream: a borrowed message or
a Kafka error (`Result<BorrowedMessage, KafkaError>`). -/
abbrev ReceiveResult := Except KafkaError BorrowedMessage

/-- `expensive_computation`: the CPU-bound computation of the example.
The embedding keeps only its return value; `payload.len()` on a Rust
`&str` is its UTF-8 byte length. -/
def expensive_computation (msg : OwnedMessage) : String :=
  match msg.payload_view with
  | some (Except.ok payload) =>
      "Payload len for " ++ payload ++ " is " ++ toString payload.utf8ByteSize
  | some (Except.error _) => "Message payload is not a string"
  | none => "No payload"

/-- One evaluation of the `filter_map` closure on a single receive
result: the message passed through (if any) together with the warn-log
lines emitted as its side effect. -/
def filterStep (result : ReceiveResult) : Option BorrowedMessage × List String :=
  match result with
  | Except.ok msg => (some msg, [])
  | Except.error kafka_error =>
      (none, ["Error while receiving from Kafka: " ++ kafka_error.message])

/-- The error filter applied to a finite stream: the stream of messages
that reach the `for_each` stage. -/
def filteredStream (input : List ReceiveResult) : List BorrowedMessage :=
  input.filterMap (fun r => (filterStep r).1)

/-- The warn-log lines emitted by the error filter over a finite stream. -/
def filterLogs (input : List ReceiveResult) : List String :=
  (input.map (fun r => (filterStep r).2)).flatten

/-- Whether a receive attempt succeeded. -/
def isOkReceive : ReceiveResult → Bool
  | Except.ok _ => true
  | Except.error _ => false

/-- The successfully received messages of a stream, written by direct
recursion (used to state order preservation independently of
`List.filterMap`). -/
def successesOf : List ReceiveResult → List BorrowedMessage
  | [] => []
  | Except.ok m :: rest => m :: successesOf rest
  | Except.error _ :: rest => successesOf rest

/-- The states of one dispatch unit (the spawned `message_future`), as
named by the spec's per-unit state machine. -/
inductive UnitState where
  | received
  | offloading
  | offloaded (result : String)
  | offloadFailed
  | publishing (result : String)
  | published (delivery : Int × Int)
  | publishFailed (err : KafkaError)
deriving DecidableEq, Repr

/-- Terminal states of a dispatch unit. -/
def UnitState.isTerminal : UnitState → Bool
  | UnitState.published _ => true
  | UnitState.publishFailed _ => true
  | UnitState.offloadFailed => true
  | _ => false

/-- Modelled from the spec: the Blocking Task Offloader
(`tokio_executor::blocking::run`) and the Result Sink
(`FutureProducer::send`) live outside `src/`, so their outcomes are the
parameters of a deterministic fake environment, as §8 of the spec
prescribes for testing. `comp` is the offloaded computation's future:
per §4.4 a raised/panicking computation is captured and surfaces as a
failed future (`Except.error`); `pub` is the producer future's delivery
outcome for a given payload, per §4.5 either delivery metadata
(partition, offset) or a Kafka error. -/
structure FakeEnv where
  comp : OwnedMessage → Except Unit String
  pub : String → Except KafkaError (Int × Int)

/-- One await inside a dispatch unit, stepping its state and emitting
(sink calls, console lines): `received → offloading` starts the
offload; `offloading` resolves the offload future; `offloaded →
publishing` is the `producer.send` call (the one sink invocation);
`publishing` resolves the delivery future and prints the outcome as in
the `then` continuation of the source. Terminal states do not step. -/
def unitNext (env : FakeEnv) (msg : OwnedMessage) :
    UnitState → Option (UnitState × List String × List String)
  | UnitState.received => some (UnitState.offloading, [], [])
  | UnitState.offloading =>
      match env.comp msg with
      | Except.ok r => some (UnitState.offloaded r, [], [])
      | Except.error _ => some (UnitState.offloadFailed, [], [])
  | UnitState.offloaded r => some (UnitState.publishing r, [r], [])
  | UnitState.publishing r =>
      match env.pub r with
      | Except.ok d =>
          some (UnitState.published d, [], ["Sent: " ++ toString d])
      | Except.error e =>
          some (UnitState.publishFailed e, [], ["Error: " ++ e.message])
  | UnitState.offloadFailed => none
  | UnitState.published _ => none
  | UnitState.publishFailed _ => none

/-- Run a dispatch unit for at most `fuel` awaits, collecting its sink
calls and console output. -/
def unitRunAux (env : FakeEnv) (msg : OwnedMessage) :
    Nat → UnitState → UnitState × List String × List String
  | 0, s => (s, [], [])
  | n + 1, s =>
      match unitNext env msg s with
      | none => (s, [], [])
      | some (s2, calls, outs) =>
          let rest := unitRunAux env msg n s2
          (rest.1, calls ++ rest.2.1, outs ++ rest.2.2)

/-- A complete execution of one dispatch unit from `received`: four
awaits suffice to reach a terminal state. -/
def runUnit (env : FakeEnv) (msg : OwnedMessage) :
    UnitState × List String × List String :=
  unitRunAux env msg 4 UnitState.received

/-- The `then` continuation applied to the delivery result in the
source: print the outcome and resolve to `ready(())`. Returns the
future's value together with the printed line. -/
def publishContinuation (result : Except KafkaError (Int × Int)) : Unit × String :=
  match result with
  | Except.ok delivery => ((), "Sent: " ++ toString delivery)
  | Except.error e => ((), "Error: " ++ e.message)

/-- The value the spawned `message_future` resolves to: if the offload
future fails (captured panic), the unit's future fails; otherwise the
publish continuation runs and the future resolves to `()` whatever the
delivery outcome. -/
def messageFutureResult (env : FakeEnv) (msg : OwnedMessage) : Except Unit Unit :=
  match env.comp msg with
  | Except.error e => Except.error e
  | Except.ok r => Except.ok (publishContinuation (env.pub r)).1

/-- The transition relation of the spec's per-unit state machine:
`Received → Offloading → Offloaded | OffloadFailed → Publishing (if
Offloaded) → Published | PublishFailed`. -/
def allowedTransition : UnitState → UnitState → Bool
  | UnitState.received, UnitState.offloading => true
  | UnitState.offloading, UnitState.offloaded _ => true
  | UnitState.offloading, UnitState.offloadFailed => true
  | UnitState.offloaded r, UnitState.publishing r2 => r = r2
  | UnitState.publishing _, UnitState.published _ => true
  | UnitState.publishing _, UnitState.publishFailed _ => true
  | _, _ => false

/-- The observable state of the whole pipeline: the receive results not
yet pulled, the spawned dispatch units in spawn order (each with its
detached message), the payloads handed to `producer.send`, the console
lines printed by the publish continuations, and the warn logs of the
error filter. -/
structure PipelineState where
  pending : List ReceiveResult
  units : List (OwnedMessage × UnitState)
  sinkCalls : List String
  console : List String
  warnLogs : List String
deriving DecidableEq, Repr

/-- The pipeline state before the event loop starts on a given stream. -/
def initState (input : List ReceiveResult) : PipelineState :=
  ⟨input, [], [], [], []⟩

/-- One pull of the orchestrator (`filter_map` then the `for_each`
body): a Kafka error is warned about and dropped; a message is
detached and its dispatch unit spawned — `tokio::spawn` returns
immediately, so the new unit is recorded in state `received` without
being advanced. Returns `none` when the stream is exhausted. -/
def orchStep (st : PipelineState) : Option PipelineState :=
  match st.pending with
  | [] => none
  | r :: rest =>
      match r with
      | Except.error kafka_error =>
          some { st with
                 pending := rest
                 warnLogs := st.warnLogs ++
                   ["Error while receiving from Kafka: " ++ kafka_error.message] }
      | Except.ok borrowed_message =>
          some { st with
                 pending := rest
                 units := st.units ++ [(borrowed_message.detach, UnitState.received)] }

/-- One await of the `i`-th spawned dispatch unit. -/
def unitStepAt (env : FakeEnv) (st : PipelineState) (i : Nat) : Option PipelineState :=
  (st.units[i]?).bind (fun u =>
    (unitNext env u.1 u.2).map (fun r =>
      { st with
        units := st.units.set i (u.1, r.1)
        sinkCalls := st.sinkCalls ++ r.2.1
        console := st.console ++ r.2.2 }))

/-- A scheduling label: either the orchestrator's event loop runs, or
the `i`-th spawned unit makes progress. -/
inductive Label where
  | orch
  | unit (i : Nat)
deriving DecidableEq, Repr

/-- One scheduled step of the cooperative event loop. -/
def step (env : FakeEnv) : Label → PipelineState → Option PipelineState
  | Label.orch, st => orchStep st
  | Label.unit i, st => unitStepAt env st i

/-- Run the pipeline under an explicit schedule; a label whose step is
not enabled is skipped. -/
def runSched (env : FakeEnv) : List Label → PipelineState → PipelineState
  | [], st => st
  | l :: ls, st => runSched env ls ((step env l st).getD st)

/-- The parameters of `run_async_processor`, exactly as in its
signature: four configuration strings. -/
structure RunParams where
  brokers : String
  group_id : String
  input_topic : String
  output_topic : String
deriving DecidableEq, Repr

/-- The fields of the `FutureRecord` built for each publish call. -/
structure SinkRecord where
  topic : String
  key : String
  payload : String
deriving DecidableEq, Repr

/-- The sequential denotation of `run_async_processor` on a finite
stream: the records handed to the producer, in dispatch order. The
computation applied is the hard-coded `expensive_computation`; the
record's topic is the `output_topic` parameter and its key the literal
`"some key"` of the source. -/
def run_async_processor (p : RunParams) (input : List ReceiveResult) : List SinkRecord :=
  (filteredStream input).map (fun borrowed_message =>
    { topic := p.output_topic, key := "some key",
      payload := expensive_computation borrowed_message.detach })

/-- Following the spec's words for the Orchestrator contract
`run(source, sink, computation)`: the computation is a caller-supplied
parameter of type InboundItem → ComputationResult, applied to each
successfully received item, the results being published to the given
output destination. Stated only to compare with
`run_async_processor`. -/
def specContractRun (computation : OwnedMessage → String) (output_topic : String)
    (input : List ReceiveResult) : List SinkRecord :=
  (successesOf input).map (fun item =>
    { topic := output_topic, key := "some key",
      payload := computation item.detach })

/-- The computation of the spec's end-to-end scenario: return
`"len=" ++ length(payload)`. -/
def lenComputation (m : OwnedMessage) : String :=
  "len=" ++ toString (match m.payload with
    | some (Except.ok p) => p.length
    | _ => 0)

/-- The deterministic fake environment of the end-to-end scenario: the
offloaded computation is `lenComputation` and never fails, and every
publish is delivered. -/
def endToEndEnv : FakeEnv :=
  ⟨fun m => Except.ok (lenComputation m), fun _ => Except.ok (0, 0)⟩

/-- The end-to-end input stream: offsets 0..4 with payloads "a", "bb",
"ccc", "dddd", "eeeee", and two injected receive errors. -/
def endToEndInput : List ReceiveResult :=
  [Except.ok ⟨0, some (Except.ok "a")⟩,
   Except.error ⟨"broker unreachable"⟩,
   Except.ok ⟨1, some (Except.ok "bb")⟩,
   Except.ok ⟨2, some (Except.ok "ccc")⟩,
   Except.error ⟨"session timed out"⟩,
   Except.ok ⟨3, some (Except.ok "dddd")⟩,
   Except.ok ⟨4, some (Except.ok "eeeee")⟩]

/-- A complete schedule for the end-to-end scenario: the orchestrator
pulls all seven receive results, then the five dispatch units run to
completion in round-robin. -/
def endToEndSched : List Label :=
  List.replicate 7 Label.orch ++
    (List.replicate 4 ((List.range 5).map Label.unit)).flatten

/-- A benign fake environment used by witnesses: the computation
always succeeds with "r" and every publish is delivered. -/
def witnessEnv : FakeEnv :=
  ⟨fun _ => Except.ok "r", fun _ => Except.ok (0, 0)⟩

/-- A fake environment whose computation panics exactly on the message
with offset 0, used to witness failure isolation. -/
def witnessEnvXY : FakeEnv :=
  ⟨fun m => if m.offset = 0 then Except.error () else Except.ok "ok",
   fun _ => Except.ok (0, 0)⟩

/-- A fake environment whose publish fails exactly on payload "r0",
used to witness publish-failure handling. -/
def witnessEnvPub : FakeEnv :=
  ⟨fun m => Except.ok (if m.offset = 0 then "r0" else "r1"),
   fun s => if s = "r0" then Except.error ⟨"delivery failed"⟩ else Except.ok (0, 0)⟩

/-- A one-message input used to compare `run_async_processor` with the
spec's `run(source, sink, computation)` contract. -/
def c8Input : List ReceiveResult :=
  [Except.ok ⟨0, some (Except.ok "ab")⟩]

/-- The messages owned by the spawned dispatch units, in spawn order:
precisely the items that reached the Dispatcher. -/
def unitMessages (st : PipelineState) : List OwnedMessage :=
  st.units.map Prod.fst

/-- A fixed sample message, used to exhibit arbitrarily many in-flight
dispatch units. -/
def sampleMessage : BorrowedMessage :=
  ⟨0, some (Except.ok "sample")⟩

lemma filteredStream_nil : filteredStream [] = [] := rfl

lemma filteredStream_cons_ok (m : BorrowedMessage) (rest : List ReceiveResult) :
    filteredStream (Except.ok m :: rest) = m :: filteredStream rest := rfl

lemma filteredStream_cons_error (e : KafkaError) (rest : List ReceiveResult) :
    filteredStream (Except.error e :: rest) = filteredStream rest := rfl

lemma filteredStream_append (xs ys : List ReceiveResult) :
    filteredStream (xs ++ ys) = filteredStream xs ++ filteredStream ys := by
  simp [filteredStream, List.filterMap_append]

lemma filteredStream_eq_successesOf (input : List ReceiveResult) :
    filteredStream input = successesOf input := by
  induction input with
  | nil => rfl
  | cons r rest ih =>
      cases r with
      | error e => rw [filteredStream_cons_error, ih]; rfl
      | ok m => rw [filteredStream_cons_ok, ih]; rfl

lemma length_filteredStream (input : List ReceiveResult) :
    (filteredStream input).length = (input.filter isOkReceive).length := by
  induction input with
  | nil => rfl
  | cons r rest ih =>
      cases r with
      | error e =>
          rw [filteredStream_cons_error, ih]
          simp [List.filter_cons, isOkReceive]
      | ok m =>
          rw [filteredStream_cons_ok]
          simp [List.filter_cons, isOkReceive, ih]

lemma mem_of_mem_filteredStream (input : List ReceiveResult) (b : BorrowedMessage)
    (h : b ∈ filteredStream input) : Except.ok b ∈ input := by
  induction input with
  | nil => simp [filteredStream] at h
  | cons r rest ih =>
      cases r with
      | error e =>
          rw [filteredStream_cons_error] at h
          exact List.mem_cons_of_mem _ (ih h)
      | ok m =>
          rw [filteredStream_cons_ok] at h
          rcases List.mem_cons.mp h with h1 | h2
          · exact h1 ▸ List.mem_cons_self _ _
          · exact List.mem_cons_of_mem _ (ih h2)

lemma filteredStream_replicate_ok (n : Nat) (m : BorrowedMessage) :
    filteredStream (List.replicate n (Except.ok m)) = List.replicate n m := by
  induction n with
  | zero => rfl
  | succ n ih => rw [List.replicate_succ, filteredStream_cons_ok, ih, List.replicate_succ]

lemma map_fst_set {α β : Type} (l : List (α × β)) (i : Nat) (a : α) (b b2 : β)
    (h : l[i]? = some (a, b)) : (l.set i (a, b2)).map Prod.fst = l.map Prod.fst := by
  induction l generalizing i with
  | nil => simp at h
  | cons hd tl ih =>
      cases i with
      | zero =>
          simp at h
          cases hd
          simp_all
      | succ n =>
          rw [List.getElem?_cons_succ] at h
          exact congrArg (List.cons hd.1) (ih n h)

lemma orchStep_pending_nil (st : PipelineState) (h : st.pending = []) :
    orchStep st = none := by
  rw [orchStep, h]

lemma orchStep_pending_error (st : PipelineState) (e : KafkaError)
    (rest : List ReceiveResult) (h : st.pending = Except.error e :: rest) :
    orchStep st = some { st with
      pending := rest
      warnLogs := st.warnLogs ++ ["Error while receiving from Kafka: " ++ e.message] } := by
  rw [orchStep, h]

lemma orchStep_pending_ok (st : PipelineState) (m : BorrowedMessage)
    (rest : List ReceiveResult) (h : st.pending = Except.ok m :: rest) :
    orchStep st = some { st with
      pending := rest
      units := st.units ++ [(m.detach, UnitState.received)] } := by
  rw [orchStep, h]

lemma unitStepAt_preserves (env : FakeEnv) (st st2 : PipelineState) (i : Nat)
    (h : unitStepAt env st i = some st2) :
    st2.pending = st.pending ∧ unitMessages st2 = unitMessages st ∧
      st2.warnLogs = st.warnLogs := by
  rw [unitStepAt] at h
  rcases hg : st.units[i]? with _ | ⟨msg, s⟩ <;> rw [hg] at h
  · simp at h
  · rcases hn : unitNext env msg s with _ | ⟨s2, calls, outs⟩ <;>
      rw [Option.some_bind, hn] at h
    · simp at h
    · have h2 := Option.some_inj.mp h
      rw [← h2]
      refine ⟨rfl, ?_, rfl⟩
      exact map_fst_set st.units i msg s s2 hg

lemma runSched_cons (env : FakeEnv) (l : Label) (ls : List Label) (st : PipelineState) :
    runSched env (l :: ls) st = runSched env ls ((step env l st).getD st) := rfl

lemma step_orch (env : FakeEnv) (st : PipelineState) :
    step env Label.orch st = orchStep st := rfl

lemma step_unit (env : FakeEnv) (st : PipelineState) (i : Nat) :
    step env (Label.unit i) st = unitStepAt env st i := rfl

/-- Invariant of every schedule: the pulled prefix of the input
determines exactly which messages have been handed to the Dispatcher —
the detached successful receives of that prefix, in order. -/
lemma runSched_inv (env : FakeEnv) (input : List ReceiveResult) (sched : List Label) :
    ∀ (st : PipelineState) (k : Nat),
      st.pending = input.drop k →
      unitMessages st = (filteredStream (input.take k)).map BorrowedMessage.detach →
      ∃ k2, (runSched env sched st).pending = input.drop k2 ∧
        unitMessages (runSched env sched st) =
          (filteredStream (input.take k2)).map BorrowedMessage.detach := by
  induction sched with
  | nil => exact fun st k hp hu => ⟨k, hp, hu⟩
  | cons l ls ih =>
      intro st k hp hu
      cases l with
      | orch =>
          cases hpend : st.pending with
          | nil =>
              rw [runSched_cons, step_orch, orchStep_pending_nil st hpend, Option.getD_none]
              exact ih st k hp hu
          | cons r rest =>
              have hr : input.drop k = r :: rest := by rw [← hp, hpend]
              have hget : input[k]? = some r := by
                rw [← List.head?_drop, hr]; rfl
              have hrest : input.drop (k + 1) = rest := by
                rw [← List.tail_drop, hr]; rfl
              have htake : input.take (k + 1) = input.take k ++ [r] := by
                rw [List.take_succ, hget]; rfl
              cases r with
              | error e =>
                  rw [runSched_cons, step_orch, orchStep_pending_error st e rest hpend,
                    Option.getD_some]
                  refine ih _ (k + 1) hrest.symm ?_
                  rw [htake, filteredStream_append, filteredStream_cons_error,
                    filteredStream_nil]
                  simpa [unitMessages] using hu
              | ok m =>
                  rw [runSched_cons, step_orch, orchStep_pending_ok st m rest hpend,
                    Option.getD_some]
                  refine ih _ (k + 1) hrest.symm ?_
                  rw [htake, filteredStream_append, filteredStream_cons_ok,
                    filteredStream_nil]
                  simp only [unitMessages] at hu
                  simp [unitMessages, hu]
      | unit i =>
          cases hstep : unitStepAt env st i with
          | none =>
              rw [runSched_cons, step_unit, hstep, Option.getD_none]
              exact ih st k hp hu
          | some st2 =>
              rw [runSched_cons, step_unit, hstep, Option.getD_some]
              have hpres := unitStepAt_preserves env st st2 i hstep
              exact ih st2 k (hpres.1.trans hp) (hpres.2.1.trans hu)

/-- Running the orchestrator alone, once per pending receive result,
drains the whole stream: every successful receive is detached and
spawned as a dispatch unit (still unstarted), every error is warned
about, and nothing else changes. -/
lemma runSched_orch_drain (env : FakeEnv) :
    ∀ (p : List ReceiveResult) (st : PipelineState), st.pending = p →
      runSched env (List.replicate p.length Label.orch) st =
        { st with
          pending := []
          units := st.units ++
            (filteredStream p).map (fun m => (m.detach, UnitState.received))
          warnLogs := st.warnLogs ++ filterLogs p } := by
  intro p
  induction p with
  | nil =>
      intro st hp
      cases st
      simp_all [runSched, filteredStream, filterLogs]
  | cons r rest ih =>
      intro st hp
      rw [List.length_cons, List.replicate_succ, runSched_cons, step_orch]
      cases r with
      | error e =>
          rw [orchStep_pending_error st e rest hp, Option.getD_some, ih _ rfl]
          cases st
          simp [filteredStream_cons_error, filterLogs, filterStep]
      | ok m =>
          rw [orchStep_pending_ok st m rest hp, Option.getD_some, ih _ rfl]
          cases st
          simp [filteredStream_cons_ok, filterLogs, filterStep]

/-- C9: `expensive_computation` is total over all payload shapes of an
owned message: a valid UTF-8 payload `p` yields
`"Payload len for " ++ p ++ " is " ++ length(p)` (length being the
UTF-8 byte length, as Rust's `str::len`), a present but non-UTF-8
payload yields `"Message payload is not a string"`, and an absent
payload yields `"No payload"`; it never fails. -/
theorem expensive_computation_total (off : Int) (p : String) :
    expensive_computation ⟨off, some (Except.ok p)⟩ =
        "Payload len for " ++ p ++ " is " ++ toString p.utf8ByteSize ∧
    expensive_computation ⟨off, some (Except.error ())⟩ =
        "Message payload is not a string" ∧
    expensive_computation ⟨off, none⟩ = "No payload" :=
  ⟨rfl, rfl, rfl⟩

/-- C2: the Error Filter is a pure per-item stream transform: it emits
exactly the successful items in arrival order (it equals the recursive
selection of successes), it is a homomorphism for stream concatenation
(it buffers nothing across items, handling at most one item at a
time), a successful item passes through unchanged with no side effect,
and a failed item is dropped with a single diagnostic log line as its
only side effect. -/
theorem error_filter_transform (input xs ys : List ReceiveResult)
    (m : BorrowedMessage) (e : KafkaError) :
    filteredStream input = successesOf input ∧
    filteredStream (xs ++ ys) = filteredStream xs ++ filteredStream ys ∧
    filterStep (Except.ok m) = (some m, []) ∧
    filterStep (Except.error e) =
      (none, ["Error while receiving from Kafka: " ++ e.message]) ∧
    (∀ r : ReceiveResult, ((filterStep r).1.toList).length ≤ 1) :=
  ⟨filteredStream_eq_successesOf input, filteredStream_append xs ys, rfl, rfl,
   fun r => by cases r <;> simp [filterStep]⟩

/-- C5: feeding the five items with offsets 0..4 and payloads "a",
"bb", "ccc", "dddd", "eeeee" — with two receive errors injected into
the stream — through the pipeline with the computation
`"len=" ++ length(payload)` produces exactly five publish calls whose
payloads are a permutation of "len=1".."len=5", one per successful
receive and none for the injected errors, with the stream fully
consumed. -/
theorem end_to_end_scenario :
    (runSched endToEndEnv endToEndSched (initState endToEndInput)).sinkCalls.Perm
        ["len=1", "len=2", "len=3", "len=4", "len=5"] ∧
    (runSched endToEndEnv endToEndSched (initState endToEndInput)).sinkCalls.length =
      (endToEndInput.filter isOkReceive).length ∧
    (endToEndInput.filter (fun r => ! isOkReceive r)).length = 2 ∧
    (runSched endToEndEnv endToEndSched (initState endToEndInput)).pending = [] := by
  decide

/-- C8 counterexample: `run_async_processor` takes exactly four plain
configuration strings and no computation parameter — the computation it
applies is the hard-coded `expensive_computation`, so its output
disagrees with the spec contract `run(source, sink, computation)`
instantiated with a genuinely caller-supplied computation. -/
theorem run_not_computation_parametric :
    run_async_processor
        ⟨"localhost:9092", "example_consumer_group_id", "input", "output"⟩ c8Input ≠
      specContractRun (fun _ => "caller supplied result") "output" c8Input ∧
    run_async_processor
        ⟨"localhost:9092", "example_consumer_group_id", "input", "output"⟩ c8Input =
      [{ topic := "output", key := "some key", payload := "Payload len for ab is 2" }] := by
  decide

/-- C8 amended: `run_async_processor` consumes the four configuration
values (brokers, group id, input topic, output topic) as plain string
parameters at startup; every publish goes to the given output topic
with the fixed key of the source, and the processor coincides with the
spec contract only at the hard-coded `expensive_computation` — the
computation is not caller-supplied, and no worker-pool size is among
the parameters. -/
theorem run_config_plain_values (p : RunParams) (input : List ReceiveResult) :
    run_async_processor p input =
      specContractRun expensive_computation p.output_topic input ∧
    ∀ rec ∈ run_async_processor p input,
      rec.topic = p.output_topic ∧ rec.key = "some key" := by
  constructor
  · rw [run_async_processor, specContractRun, ← filteredStream_eq_successesOf]
  · intro rec hrec
    rcases List.mem_map.mp hrec with ⟨b, hb, hbe⟩
    refine ⟨?_, ?_⟩ <;> rw [← hbe]

/-- Witness for the C8 amended theorem at a concrete record of a
concrete run. -/
theorem run_config_plain_values_witness :
    ({ topic := "output", key := "some key", payload := "Payload len for ab is 2" } :
        SinkRecord).topic = "output" ∧
    ({ topic := "output", key := "some key", payload := "Payload len for ab is 2" } :
        SinkRecord).key = "some key" :=
  (run_config_plain_values
      ⟨"localhost:9092", "example_consumer_group_id", "input", "output"⟩ c8Input).2
    _ (by decide)

/-- C1: under every schedule, a transport-error receive never reaches
the Dispatcher — every message owned by a dispatch unit is the
detached form of some successfully received message of the stream —
and once the stream has been fully consumed, the number of items
handed to the Dispatcher equals the number of successful receives. -/
theorem transport_errors_never_dispatched (env : FakeEnv)
    (input : List ReceiveResult) (sched : List Label) :
    (∀ m ∈ unitMessages (runSched env sched (initState input)),
        ∃ b : BorrowedMessage, Except.ok b ∈ input ∧ m = b.detach) ∧
    ((runSched env sched (initState input)).pending = [] →
      (runSched env sched (initState input)).units.length =
        (input.filter isOkReceive).length) := by
  obtain ⟨k, hp, hu⟩ := runSched_inv env input sched (initState input) 0 rfl rfl
  constructor
  · intro m hm
    rw [hu] at hm
    rcases List.mem_map.mp hm with ⟨b, hb, hbm⟩
    exact ⟨b, List.take_subset k input (mem_of_mem_filteredStream _ _ hb), hbm.symm⟩
  · intro hdone
    have hk : input.length ≤ k := List.drop_eq_nil_iff.mp (hp.symm.trans hdone)
    have htake : input.take k = input := List.take_of_length_le hk
    calc (runSched env sched (initState input)).units.length
        = (unitMessages (runSched env sched (initState input))).length :=
          (List.length_map _ _).symm
      _ = (filteredStream input).length := by rw [hu, htake, List.length_map]
      _ = (input.filter isOkReceive).length := length_filteredStream input

/-- Witness for C1 on a concrete two-item stream with one success and
one transport error. -/
theorem transport_errors_never_dispatched_witness :
    (∃ b : BorrowedMessage,
        Except.ok b ∈ [Except.ok sampleMessage,
          Except.error (KafkaError.mk "boom")] ∧
        sampleMessage.detach = b.detach) ∧
    (runSched witnessEnv [Label.orch, Label.orch]
        (initState [Except.ok sampleMessage,
          Except.error (KafkaError.mk "boom")])).units.length =
      ([Except.ok sampleMessage,
          Except.error (KafkaError.mk "boom")].filter isOkReceive).length :=
  ⟨(transport_errors_never_dispatched witnessEnv
      [Except.ok sampleMessage, Except.error (KafkaError.mk "boom")]
      [Label.orch, Label.orch]).1 sampleMessage.detach (by decide),
   (transport_errors_never_dispatched witnessEnv
      [Except.ok sampleMessage, Except.error (KafkaError.mk "boom")]
      [Label.orch, Label.orch]).2 (by decide)⟩

/-- C3: dispatching is fire-and-forget: under the schedule in which
the orchestrator alone runs, the entire stream is pulled — so the pull
of item N+1 begins before dispatch unit N has made any progress —
while every spawned unit is still in its initial `received` state and
no sink call has happened; and the number of simultaneously in-flight
units is unbounded: an input of n successful receives leaves n units
in flight at once, for every n. -/
theorem orchestrator_never_blocks (env : FakeEnv)
    (input : List ReceiveResult) (n : Nat) :
    (runSched env (List.replicate input.length Label.orch)
        (initState input)).pending = [] ∧
    (runSched env (List.replicate input.length Label.orch)
        (initState input)).units =
      (filteredStream input).map (fun m => (m.detach, UnitState.received)) ∧
    (runSched env (List.replicate input.length Label.orch)
        (initState input)).sinkCalls = [] ∧
    (runSched env (List.replicate n Label.orch)
        (initState (List.replicate n (Except.ok sampleMessage)))).units.length = n := by
  have h1 := runSched_orch_drain env input (initState input) rfl
  have h2 := runSched_orch_drain env (List.replicate n (Except.ok sampleMessage))
    (initState (List.replicate n (Except.ok sampleMessage))) rfl
  rw [List.length_replicate] at h2
  refine ⟨?_, ?_, ?_, ?_⟩
  · rw [h1]
  · rw [h1]; simp [initState]
  · rw [h1]; rfl
  · rw [h2]; simp [initState, filteredStream_replicate_ok]

/-- C4: every dispatch unit follows the state machine
`received → offloading → (offloaded | offloadFailed)`, then
`publishing` only from `offloaded`, then `(published | publishFailed)`:
each step of a unit is an allowed transition, the three terminal
states admit no further transition, a complete execution from
`received` ends in a terminal state, the Sink is invoked at most once,
and only ever with a result whose offloaded computation completed
successfully. -/
theorem dispatch_unit_state_machine (env : FakeEnv) (msg : OwnedMessage) :
    (∀ s s2 calls outs, unitNext env msg s = some (s2, calls, outs) →
        allowedTransition s s2 = true) ∧
    (∀ s : UnitState, s.isTerminal = true → unitNext env msg s = none) ∧
    (runUnit env msg).1.isTerminal = true ∧
    (runUnit env msg).2.1.length ≤ 1 ∧
    (∀ r ∈ (runUnit env msg).2.1, env.comp msg = Except.ok r) := by
  refine ⟨?_, ?_, ?_, ?_, ?_⟩
  · intro s s2 calls outs h
    cases s with
    | received =>
        simp only [unitNext, Option.some_inj, Prod.mk.injEq] at h
        rw [← h.1]; rfl
    | offloading =>
        rcases hc : env.comp msg with e | r <;>
          simp only [unitNext, hc, Option.some_inj, Prod.mk.injEq] at h <;>
          rw [← h.1] <;> rfl
    | offloaded r =>
        simp only [unitNext, Option.some_inj, Prod.mk.injEq] at h
        rw [← h.1]; simp [allowedTransition]
    | offloadFailed => exact absurd h (by simp [unitNext])
    | publishing r =>
        rcases hp : env.pub r with e | d <;>
          simp only [unitNext, hp, Option.some_inj, Prod.mk.injEq] at h <;>
          rw [← h.1] <;> rfl
    | published d => exact absurd h (by simp [unitNext])
    | publishFailed e => exact absurd h (by simp [unitNext])
  · intro s hs
    cases s <;> first | rfl | simp [UnitState.isTerminal] at hs
  · rcases hc : env.comp msg with e | r
    · simp [runUnit, unitRunAux, unitNext, hc, UnitState.isTerminal]
    · rcases hp : env.pub r with e2 | d <;>
        simp [runUnit, unitRunAux, unitNext, hc, hp, UnitState.isTerminal]
  · rcases hc : env.comp msg with e | r
    · simp [runUnit, unitRunAux, unitNext, hc]
    · rcases hp : env.pub r with e2 | d <;>
        simp [runUnit, unitRunAux, unitNext, hc, hp]
  · rcases hc : env.comp msg with e | r
    · simp [runUnit, unitRunAux, unitNext, hc]
    · rcases hp : env.pub r with e2 | d <;>
        simp [runUnit, unitRunAux, unitNext, hc, hp]

/-- Witness for C4: a concrete step is an allowed transition and a
concrete terminal state does not step. -/
theorem dispatch_unit_state_machine_witness :
    allowedTransition UnitState.received UnitState.offloading = true ∧
    unitNext witnessEnv sampleMessage.detach UnitState.offloadFailed = none :=
  ⟨(dispatch_unit_state_machine witnessEnv sampleMessage.detach).1
      UnitState.received UnitState.offloading [] [] rfl,
   (dispatch_unit_state_machine witnessEnv sampleMessage.detach).2.1
      UnitState.offloadFailed rfl⟩

/-- C10: when the offloaded computation succeeds, the spawned unit's
future resolves to the unit value regardless of the publish outcome:
the publish continuation maps both the delivery success and the
delivery failure to `()` after printing exactly one outcome line, the
unit ends in a terminal state, and that state is `published` on
delivery and `publishFailed` on failure — no error value escapes the
publish stage. -/
theorem dispatch_unit_returns_unit (env : FakeEnv) (msg : OwnedMessage)
    (r : String) (h : env.comp msg = Except.ok r) :
    messageFutureResult env msg = Except.ok () ∧
    (∀ result : Except KafkaError (Int × Int), (publishContinuation result).1 = ()) ∧
    (runUnit env msg).2.2.length = 1 ∧
    (runUnit env msg).1.isTerminal = true ∧
    ((∃ d, env.pub r = Except.ok d ∧ (runUnit env msg).1 = UnitState.published d) ∨
      (∃ e, env.pub r = Except.error e ∧
        (runUnit env msg).1 = UnitState.publishFailed e)) := by
  rcases hp : env.pub r with e | d
  · exact ⟨by simp [messageFutureResult, h], fun result => rfl,
      by simp [runUnit, unitRunAux, unitNext, h, hp],
      by simp [runUnit, unitRunAux, unitNext, h, hp, UnitState.isTerminal],
      Or.inr ⟨e, rfl, by simp [runUnit, unitRunAux, unitNext, h, hp]⟩⟩
  · exact ⟨by simp [messageFutureResult, h], fun result => rfl,
      by simp [runUnit, unitRunAux, unitNext, h, hp],
      by simp [runUnit, unitRunAux, unitNext, h, hp, UnitState.isTerminal],
      Or.inl ⟨d, rfl, by simp [runUnit, unitRunAux, unitNext, h, hp]⟩⟩

/-- Witness for C10 at a concrete environment whose computation
succeeds. -/
theorem dispatch_unit_returns_unit_witness :
    messageFutureResult witnessEnv sampleMessage.detach = Except.ok () :=
  (dispatch_unit_returns_unit witnessEnv sampleMessage.detach "r" rfl).1

/-- C6: a captured computation failure surfaces as a failed future
only to its own dispatch unit: when the computation panics on item X
but succeeds on a concurrently dispatched item Y, X's unit future
fails and its unit terminates in `offloadFailed`, while under an
interleaved schedule Y's unit still completes and publishes, the
orchestrator having pulled the whole stream — the failure reaches
neither the orchestrator nor the sibling unit. -/
theorem computation_failure_isolated (env : FakeEnv) (x y : BorrowedMessage)
    (ry : String) (d : Int × Int)
    (hx : env.comp x.detach = Except.error ())
    (hy : env.comp y.detach = Except.ok ry)
    (hp : env.pub ry = Except.ok d) :
    messageFutureResult env x.detach = Except.error () ∧
    runSched env
        [Label.orch, Label.orch, Label.unit 0, Label.unit 1, Label.unit 0,
         Label.unit 1, Label.unit 1, Label.unit 1]
        (initState [Except.ok x, Except.ok y]) =
      { pending := []
        units := [(x.detach, UnitState.offloadFailed),
                  (y.detach, UnitState.published d)]
        sinkCalls := [ry]
        console := ["Sent: " ++ toString d]
        warnLogs := [] } := by
  refine ⟨by simp [messageFutureResult, hx], ?_⟩
  simp [runSched_cons, step, orchStep, unitStepAt, unitNext, initState, hx, hy, hp]
  rfl

/-- Witness for C6: computation panics on offset 0, succeeds on
offset 1. -/
theorem computation_failure_isolated_witness :
    messageFutureResult witnessEnvXY
        (BorrowedMessage.detach ⟨0, none⟩) = Except.error () :=
  (computation_failure_isolated witnessEnvXY ⟨0, none⟩ ⟨1, none⟩ "ok" (0, 0)
      (by decide) (by decide) rfl).1

/-- C7: a publish failure is reported on the diagnostic output,
terminates only that unit in `publishFailed` with its payload sent
exactly once (no retry, no requeue), and does not stop the
orchestrator loop: after X's unit has fully failed to publish, the
subsequent item Y is still pulled, dispatched, and published. -/
theorem publish_failure_not_fatal (env : FakeEnv) (x y : BorrowedMessage)
    (rx ry : String) (e : KafkaError) (d : Int × Int)
    (hx : env.comp x.detach = Except.ok rx)
    (hy : env.comp y.detach = Except.ok ry)
    (hpx : env.pub rx = Except.error e)
    (hpy : env.pub ry = Except.ok d) :
    runSched env
        [Label.orch, Label.unit 0, Label.unit 0, Label.unit 0, Label.unit 0,
         Label.orch, Label.unit 1, Label.unit 1, Label.unit 1, Label.unit 1]
        (initState [Except.ok x, Except.ok y]) =
      { pending := []
        units := [(x.detach, UnitState.publishFailed e),
                  (y.detach, UnitState.published d)]
        sinkCalls := [rx, ry]
        console := ["Error: " ++ e.message, "Sent: " ++ toString d]
        warnLogs := [] } := by
  simp [runSched_cons, step, orchStep, unitStepAt, unitNext, initState,
    hx, hy, hpx, hpy]
  rfl

/-- Witness for C7: delivery fails for the payload computed from
offset 0, succeeds for the one from offset 1. -/
theorem publish_failure_not_fatal_witness :
    runSched witnessEnvPub
        [Label.orch, Label.unit 0, Label.unit 0, Label.unit 0, Label.unit 0,
         Label.orch, Label.unit 1, Label.unit 1, Label.unit 1, Label.unit 1]
        (initState [Except.ok ⟨0, none⟩, Except.ok ⟨1, none⟩]) =
      { pending := []
        units := [(BorrowedMessage.detach ⟨0, none⟩,
                    UnitState.publishFailed ⟨"delivery failed"⟩),
                  (BorrowedMessage.detach ⟨1, none⟩, UnitState.published (0, 0))]
        sinkCalls := ["r0", "r1"]
        console := ["Error: " ++ KafkaError.message ⟨"delivery failed"⟩,
                    "Sent: " ++ toString ((0 : Int), (0 : Int))]
        warnLogs := [] } :=
  publish_failure_not_fatal witnessEnvPub ⟨0, none⟩ ⟨1, none⟩ "r0" "r1"
    ⟨"delivery failed"⟩ (0, 0) (by decide) (by decide) (by decide) (by decide)

end AsyncProcessing
